import Mathlib

/-!
# HTML to PDF batch converter (`node.js`)

A shallow embedding of the script `node.js`: the single conversion function
`convertHTMLFileToPDF` and the batch driver `main`.

* JavaScript strings are Lean strings; the string methods the script uses
  (`endsWith`, `replace` with a string pattern) are defined on their
  character lists.
* The Node `path` module is modelled for POSIX (`path.join`,
  `path.isAbsolute`, `path.resolve`, `path.dirname`).
* Object literals with spread are association lists updated key by key.
* The file system, the browser and the console are an explicit `World`
  that every call threads through; what the outside world decides (which
  call throws, what a file contains, what a directory lists) is an `Env`.
-/

set_option autoImplicit false

namespace HtmlToPdf

/-! ## JavaScript strings -/

namespace JSString

/-- The method `s.endsWith(suffix)`: a case-sensitive comparison of the last
characters. -/
def endsWith (s suffix : String) : Bool :=
  suffix.data.isSuffixOf s.data

/-- The characters of `s.replace(pat, rep)` for a string pattern: only the
first occurrence of `pat`, scanning from the left, is replaced. -/
def replaceChars (pat rep : List Char) : List Char → List Char
  | [] => if pat.isPrefixOf [] then rep else []
  | c :: cs =>
    if pat.isPrefixOf (c :: cs) then rep ++ (c :: cs).drop pat.length
    else c :: replaceChars pat rep cs

/-- The method `s.replace(pat, rep)` with a string pattern and a replacement without
`$` patterns (the script calls it with `'.html'` and `'.pdf'`). -/
def replace (s pat rep : String) : String :=
  ⟨replaceChars pat.data rep.data s.data⟩

/-- The string `s` without its last `n` characters, `s.slice(0, s.length - n)`
for `n ≤ s.length`. -/
def dropRight (s : String) (n : Nat) : String :=
  ⟨s.data.take (s.data.length - n)⟩

end JSString

/-! ## The Node `path` module (POSIX) -/

namespace path

/-- One step of `normalizeString`: the segments kept so far (innermost
first) and the next segment. Empty segments and `.` are dropped, `..`
removes the last kept segment, or is kept when there is none to remove and
the path is relative. -/
def pushSegment (allowAboveRoot : Bool) (kept : List (List Char)) (seg : List Char) :
    List (List Char) :=
  if seg = [] ∨ seg = ['.'] then kept
  else if seg = ['.', '.'] then
    match kept with
    | [] => if allowAboveRoot then [seg] else []
    | top :: below =>
      if top = ['.', '.'] then (if allowAboveRoot then seg :: kept else kept)
      else below
  else seg :: kept

/-- The helper `normalizeString(path, allowAboveRoot, '/')`: resolves `.` and
`..` segments and collapses repeated separators; the result has no leading
and no trailing separator. -/
def normalizeString (p : List Char) (allowAboveRoot : Bool) : List Char :=
  List.intercalate ['/'] ((List.splitOn '/' p).foldl (pushSegment allowAboveRoot) []).reverse

/-- The function `path.isAbsolute(p)`: the path is not empty and starts with `/`. -/
def isAbsolute (p : String) : Bool :=
  p.data.head? == some '/'

/-- The characters of `path.normalize(p)`, which `path.join` applies to the
joined arguments. -/
def normalizeChars (p : List Char) : List Char :=
  if p = [] then ['.']
  else
    let isAbs := p.head? == some '/'
    let trailingSeparator := p.getLast? == some '/'
    let q := normalizeString p (!isAbs)
    if q = [] then
      if isAbs then ['/'] else if trailingSeparator then ['.', '/'] else ['.']
    else
      let q := if trailingSeparator then q ++ ['/'] else q
      if isAbs then '/' :: q else q

/-- The function `path.join(a, b)`: the non-empty arguments are joined with `/` and the
result is normalized; `.` when both are empty. -/
def join (a b : String) : String :=
  match [a.data, b.data].filter (fun s => s ≠ []) with
  | [] => "."
  | parts => ⟨normalizeChars (List.intercalate ['/'] parts)⟩

/-- The function `path.resolve(p)` with one argument, in a process whose working directory
is `cwd` (an absolute path): `p` itself when it is absolute, `cwd/p`
otherwise, normalized and without a trailing separator. -/
def resolve (cwd p : String) : String :=
  let resolvedPath : List Char := if p.data = [] then [] else p.data ++ ['/']
  let resolvedAbsolute := isAbsolute p
  let resolvedPath := if resolvedAbsolute then resolvedPath else cwd.data ++ '/' :: resolvedPath
  let resolvedAbsolute := resolvedAbsolute || isAbsolute cwd
  let q := normalizeString resolvedPath (!resolvedAbsolute)
  if resolvedAbsolute then ⟨'/' :: q⟩ else if q = [] then "." else ⟨q⟩

/-- The function `path.dirname(p)`: the path up to, and without, the last separator that
is followed by a name; trailing separators are ignored. -/
def dirname (p : String) : String :=
  match p.data with
  | [] => "."
  | c :: rest =>
    let hasRoot := c == '/'
    let upToSlash := ((rest.reverse.dropWhile (fun x => x == '/')).dropWhile
      (fun x => x != '/')).reverse
    if upToSlash = [] then (if hasRoot then "/" else ".")
    else if hasRoot ∧ upToSlash.length = 1 then "//"
    else ⟨(c :: rest).take upToSlash.length⟩

end path

/-! ## JavaScript objects -/

/-- A JavaScript value as far as the script handles one: the options it
builds and passes on hold strings, booleans, numbers and nested objects
(a margin box). -/
inductive Value where
  | undefined
  | bool (b : Bool)
  | num (n : Int)
  | str (s : String)
  | obj (props : List (String × Value))

/-- An object: its own enumerable properties in creation order. -/
abbrev Obj := List (String × Value)

namespace Obj

/-- Reads the property `o[k]`; `none` when `o` has no own property `k`. -/
def get (o : Obj) (k : String) : Option Value :=
  List.lookup k o

/-- Defines the property `k` of `o` as `v`: an existing property keeps its
place and takes the new value, a new one is added at the end. -/
def set (o : Obj) (k : String) (v : Value) : Obj :=
  if o.any (fun kv => kv.1 == k) then o.map (fun kv => if kv.1 == k then (kv.1, v) else kv)
  else o ++ [(k, v)]

/-- One step of a spread: the property `k` is read from `source` and defined
on the object built so far. -/
def copyProperty (source acc : Obj) (k : String) : Obj :=
  match source.get k with
  | some v => acc.set k v
  | none => acc

/-- The spread `{...target, ...source}`: for every own key of `source`, in
order, the value is read from `source` and defined on a copy of `target`. -/
def spread (target source : Obj) : Obj :=
  (source.map Prod.fst).foldl (copyProperty source) target

/-- An object literal `{k1: v1, k2: v2, ...}`: the properties are defined in
the order written, on an empty object. -/
def literal (props : List (String × Value)) : Obj :=
  spread [] props

end Obj

/-! ## The outside world -/

/-- A JavaScript `Error` with its message. -/
structure JSError where
  message : String
  deriving DecidableEq

/-- One call the script makes to the outside world. `invoke` marks the entry
into `convertHTMLFileToPDF` with its four arguments. The console messages
are `logCreated` for `PDF created successfully at: <outputPath>`,
`logConverted` for `Converted: <file> -> <outputFileName>` and `logError`
for `console.error('Error converting HTML to PDF:', error)`. -/
inductive Event where
  | invoke (htmlFilePath outputDirectory outputFilename : String) (options : Obj)
  | mkdirSync (dir : String) (recursive : Bool)
  | readdirSync (dir : String)
  | launch (headless : String)
  | newPage
  | readFileSync (file encoding : String)
  | setContent (html waitUntil baseURL : String)
  | pdf (options : Obj)
  | close
  | logCreated (outputPath : String)
  | logConverted (file outputFileName : String)
  | logError (error : JSError)

/-- A recorded call together with the file-system entries that existed when
it was made. -/
structure Entry where
  event : Event
  paths : List String

/-- The state the script acts on: the paths that exist in the file system,
the number of browsers that are open, and the calls made so far (oldest
first). -/
structure World where
  paths : List String
  browsers : Nat
  trace : List Entry

namespace World

/-- Records a call, with the file system as it is at that moment. -/
def call (w : World) (e : Event) : World :=
  { w with trace := w.trace ++ [⟨e, w.paths⟩] }

end World

/-- What the outside world decides. For each call that can throw, `some e`
means it throws `e` when made in the given world; `cwd` is the working
directory of the process. -/
structure Env where
  cwd : String
  mkdirSync : String → World → Option JSError
  readdirSync : String → World → Except JSError (List String)
  readFileSync : String → World → Except JSError String
  launch : World → Option JSError
  newPage : World → Option JSError
  setContent : String → String → World → Option JSError
  pdf : Obj → World → Option JSError
  close : World → Option JSError

/-- The outcome of a call: the value returned or the error thrown, and the
world after it. -/
abbrev Outcome (α : Type) := Except JSError α × World

namespace fs

/-- The function `fs.existsSync(p)`: whether the path exists. -/
def existsSync (p : String) (w : World) : Bool :=
  w.paths.contains p

/-- The proper ancestors of a path: each non-empty part of it that ends right
before a separator. -/
def parents (p : String) : List String :=
  ((List.range p.data.length).filter
      (fun i => 0 < i ∧ p.data.get? i = some '/')).map (fun i => ⟨p.data.take i⟩)

/-- The call `fs.mkdirSync(dir, { recursive: true })`: on success the directory and
its missing ancestors exist. -/
def mkdirSync (env : Env) (dir : String) (w : World) : Outcome Unit :=
  let w := w.call (.mkdirSync dir true)
  match env.mkdirSync dir w with
  | some e => (.error e, w)
  | none => (.ok (), { w with paths := w.paths ++ (parents dir ++ [dir]) })

/-- The statement `if (!fs.existsSync(dir)) { fs.mkdirSync(dir, { recursive:
true }); }`, which both functions of the script contain. -/
def mkdirIfMissing (env : Env) (dir : String) (w : World) : Outcome Unit :=
  if !existsSync dir w then mkdirSync env dir w else (.ok (), w)

/-- The call `fs.readdirSync(dir)`: the names of the entries of `dir`. -/
def readdirSync (env : Env) (dir : String) (w : World) : Outcome (List String) :=
  let w := w.call (.readdirSync dir)
  (env.readdirSync dir w, w)

/-- The call `fs.readFileSync(file, 'utf8')`: the text of the file. -/
def readFileSync (env : Env) (file : String) (w : World) : Outcome String :=
  let w := w.call (.readFileSync file "utf8")
  (env.readFileSync file w, w)

end fs

namespace puppeteer

/-- The call `puppeteer.launch({ headless: 'new' })`: on success one more browser is
open. -/
def launch (env : Env) (w : World) : Outcome Unit :=
  let w := w.call (.launch "new")
  match env.launch w with
  | some e => (.error e, w)
  | none => (.ok (), { w with browsers := w.browsers + 1 })

/-- The call `browser.newPage()`. -/
def newPage (env : Env) (w : World) : Outcome Unit :=
  let w := w.call .newPage
  match env.newPage w with
  | some e => (.error e, w)
  | none => (.ok (), w)

/-- The call `page.setContent(html, { waitUntil: 'networkidle0', baseURL })`. -/
def setContent (env : Env) (html baseURL : String) (w : World) : Outcome Unit :=
  let w := w.call (.setContent html "networkidle0" baseURL)
  match env.setContent html baseURL w with
  | some e => (.error e, w)
  | none => (.ok (), w)

/-- The effect of a successful export on the file system: the document
exists at the file named by the `path` option, when that is a string. -/
def writeDocument (options : Obj) (w : World) : World :=
  match options.get "path" with
  | some (.str file) => { w with paths := w.paths ++ [file] }
  | _ => w

/-- The call `page.pdf(options)`: on success the document is written to the file
named by the `path` option. -/
def pdf (env : Env) (options : Obj) (w : World) : Outcome Unit :=
  let w := w.call (.pdf options)
  match env.pdf options w with
  | some e => (.error e, w)
  | none => (.ok (), writeDocument options w)

/-- The call `browser.close()`: on success one browser fewer is open. -/
def close (env : Env) (w : World) : Outcome Unit :=
  let w := w.call .close
  match env.close w with
  | some e => (.error e, w)
  | none => (.ok (), { w with browsers := w.browsers - 1 })

end puppeteer

/-! ## The script -/

/-- The value of `outputFilename` when the caller omits it. -/
def defaultOutputFilename : String := "output.pdf"

/-- The value of `options` when the caller omits it: `{}`. -/
def defaultOptions : Obj := []

/-- The object `pdfOptions` of `convertHTMLFileToPDF`:
`{ format: 'A4', printBackground: true, ...options }`. -/
def pdfOptions (options : Obj) : Obj :=
  Obj.spread (Obj.literal [("format", .str "A4"), ("printBackground", .bool true)]) options

/-- The argument of `page.pdf` in `convertHTMLFileToPDF`:
`{ path: outputPath, ...pdfOptions }`. -/
def pdfArgument (outputPath : String) (pdfOptions : Obj) : Obj :=
  Obj.spread (Obj.literal [("path", .str outputPath)]) pdfOptions

/-- The function `convertHTMLFileToPDF(htmlFilePath, outputDirectory,
outputFilename, options)`. It returns the output path or throws; the world
after the call is returned in both cases. -/
def convertHTMLFileToPDF (env : Env) (htmlFilePath outputDirectory outputFilename : String)
    (options : Obj) (w : World) : Outcome String :=
  let w := w.call (.invoke htmlFilePath outputDirectory outputFilename options)
  if !fs.existsSync htmlFilePath w then
    (.error ⟨"HTML file not found: " ++ htmlFilePath⟩, w)
  else
    match fs.mkdirIfMissing env outputDirectory w with
    | (.error e, w) => (.error e, w)
    | (.ok _, w) =>
      let outputPath := path.join outputDirectory outputFilename
      let pdfOptions := pdfOptions options
      match puppeteer.launch env w with
      | (.error e, w) => (.error e, w)
      | (.ok _, w) =>
        match puppeteer.newPage env w with
        | (.error e, w) => (.error e, w)
        | (.ok _, w) =>
          match fs.readFileSync env htmlFilePath w with
          | (.error e, w) => (.error e, w)
          | (.ok htmlContent, w) =>
            match puppeteer.setContent env htmlContent
                ("file://" ++ path.dirname (path.resolve env.cwd htmlFilePath) ++ "/") w with
            | (.error e, w) => (.error e, w)
            | (.ok _, w) =>
              match puppeteer.pdf env (pdfArgument outputPath pdfOptions) w with
              | (.error e, w) => (.error e, w)
              | (.ok _, w) =>
                match puppeteer.close env w with
                | (.error e, w) => (.error e, w)
                | (.ok _, w) => (.ok outputPath, w.call (.logCreated outputPath))

/-- The options `main` passes to every conversion:
`{ format: 'A4', landscape: false }`. -/
def mainOptions : Obj :=
  Obj.literal [("format", .str "A4"), ("landscape", .bool false)]

/-- The output filename `main` derives: `file.replace('.html', '.pdf')`. -/
def outputFileName (file : String) : String :=
  JSString.replace file ".html" ".pdf"

/-- The `for (const file of htmlFiles)` loop of `main`: the first conversion
that throws ends the loop with its error. -/
def mainLoop (env : Env) (htmlFolderPath outputDirectory : String) :
    List String → World → Outcome Unit
  | [], w => (.ok (), w)
  | file :: rest, w =>
    let htmlFilePath := path.join htmlFolderPath file
    match convertHTMLFileToPDF env htmlFilePath outputDirectory (outputFileName file)
        mainOptions w with
    | (.error e, w) => (.error e, w)
    | (.ok _, w) =>
      mainLoop env htmlFolderPath outputDirectory rest
        (w.call (.logConverted file (outputFileName file)))

/-- The files `main` retains from a listing:
`files.filter(file => file.endsWith('.html'))`. -/
def htmlFiles (files : List String) : List String :=
  files.filter (fun file => JSString.endsWith file ".html")

/-- The input folder of `main`, from the script's directory `__dirname`. -/
def htmlFolderPath (dirname : String) : String :=
  path.join dirname "HTML_Templates/HTMLTemplates_new_version5"

/-- The output folder of `main`, from the script's directory `__dirname`. -/
def mainOutputDirectory (dirname : String) : String :=
  path.join dirname "PDF Leaflets-newv3"

/-- The first statements of the `try` block of `main`, up to the listing of
the input folder: the output folder is created when it is missing, and the
result is the listing `files`. -/
def mainSetup (env : Env) (dirname : String) (w : World) : Outcome (List String) :=
  let outputDirectory := mainOutputDirectory dirname
  match fs.mkdirIfMissing env outputDirectory w with
  | (.error e, w) => (.error e, w)
  | (.ok _, w) => fs.readdirSync env (htmlFolderPath dirname) w

/-- The body of the `try` block of `main`: the setup, then the loop over the
retained files. -/
def mainTry (env : Env) (dirname : String) (w : World) : Outcome Unit :=
  match mainSetup env dirname w with
  | (.error e, w) => (.error e, w)
  | (.ok files, w) =>
    mainLoop env (htmlFolderPath dirname) (mainOutputDirectory dirname) (htmlFiles files) w

/-- The function `main()`, run in the directory `dirname` of the script: an
error thrown inside the `try` block is caught and logged, so `main` itself
always completes; its result is the world it leaves. -/
def main (env : Env) (dirname : String) (w : World) : World :=
  match mainTry env dirname w with
  | (.ok _, w) => w
  | (.error e, w) => w.call (.logError e)

/-! ## Reading a trace -/

/-- The conversions invoked, in order, each with its four arguments. -/
def invocations (evs : List Event) : List (String × String × String × Obj) :=
  evs.filterMap fun
    | .invoke htmlFilePath outputDirectory outputFilename options =>
      some (htmlFilePath, outputDirectory, outputFilename, options)
    | _ => none

/-- The files reported as converted by `main`, in order, each with its output
filename. -/
def converted (evs : List Event) : List (String × String) :=
  evs.filterMap fun
    | .logConverted file outputFileName => some (file, outputFileName)
    | _ => none

/-- The errors logged by `main`, in order. -/
def loggedErrors (evs : List Event) : List JSError :=
  evs.filterMap fun
    | .logError e => some e
    | _ => none

/-- The arguments of the PDF exports, in order. -/
def exports (evs : List Event) : List Obj :=
  evs.filterMap fun
    | .pdf options => some options
    | _ => none

/-- The number of browser launches attempted. -/
def launches (evs : List Event) : Nat :=
  evs.countP fun
    | .launch _ => true
    | _ => false

/-- The number of calls of `browser.close`. -/
def closes (evs : List Event) : Nat :=
  evs.countP fun
    | .close => true
    | _ => false

/-- The name of the function called. -/
def Event.name : Event → String
  | .invoke _ _ _ _ => "convertHTMLFileToPDF"
  | .mkdirSync _ _ => "fs.mkdirSync"
  | .readdirSync _ => "fs.readdirSync"
  | .launch _ => "puppeteer.launch"
  | .newPage => "browser.newPage"
  | .readFileSync _ _ => "fs.readFileSync"
  | .setContent _ _ _ => "page.setContent"
  | .pdf _ => "page.pdf"
  | .close => "browser.close"
  | .logCreated _ => "console.log"
  | .logConverted _ _ => "console.log"
  | .logError _ => "console.error"

/-- Whether a call is a browser launch or a PDF export. -/
def Event.usesOutput : Event → Bool
  | .launch _ => true
  | .pdf _ => true
  | _ => false

/-- The paths that exist inside the directory `dir`, each once. -/
def outputsIn (dir : String) (w : World) : List String :=
  (w.paths.filter (fun p => (dir.data ++ ['/']).isPrefixOf p.data)).eraseDups

/-- The recorded calls, with their snapshots, that a run added to the trace of
the world `w` it started from. -/
def newEntries (w after : World) : List Entry :=
  after.trace.drop w.trace.length

/-- The calls a run added to the trace of the world `w` it started from. -/
def newEvents (w after : World) : List Event :=
  (newEntries w after).map Entry.event

/-! ## Concrete worlds -/

/-- An outside world in which no call throws; every directory lists `files`
and every file reads as an empty document. -/
def Env.calm (files : List String) : Env where
  cwd := "/srv"
  mkdirSync := fun _ _ => none
  readdirSync := fun _ _ => .ok files
  readFileSync := fun _ _ => .ok "<html></html>"
  launch := fun _ => none
  newPage := fun _ => none
  setContent := fun _ _ _ => none
  pdf := fun _ _ => none
  close := fun _ => none

/-- An outside world like `Env.calm files`, except that the PDF export throws
whenever the path it is asked to write ends with `bad`. -/
def Env.exportThrows (files : List String) (bad : String) : Env where
  cwd := "/srv"
  mkdirSync := fun _ _ => none
  readdirSync := fun _ _ => .ok files
  readFileSync := fun _ _ => .ok "<html></html>"
  launch := fun _ => none
  newPage := fun _ => none
  setContent := fun _ _ _ => none
  pdf := fun options _ =>
    match options.get "path" with
    | some (.str file) =>
      if JSString.endsWith file bad then some ⟨"Protocol error (Page.printToPDF)"⟩ else none
    | _ => none
  close := fun _ => none

/-- A world with the given file-system entries, no browser open and an empty
trace. -/
def World.initial (paths : List String) : World :=
  { paths := paths, browsers := 0, trace := [] }

namespace Scenario

/-- A file system that holds the source `in.html` and nothing else. -/
def source : World :=
  World.initial ["in.html"]

/-- A conversion in which nothing throws, into the relative directory
`downloaded` of the script's commented-out example. -/
def relativeRun : Outcome String :=
  convertHTMLFileToPDF (Env.calm []) "in.html" "downloaded" "document.pdf" defaultOptions source

/-- A conversion in which nothing throws, into the absolute directory
`/srv/out`. -/
def absoluteRun : Outcome String :=
  convertHTMLFileToPDF (Env.calm []) "in.html" "/srv/out" "document.pdf" defaultOptions source

/-- A conversion whose PDF export throws. -/
def exportFails : Outcome String :=
  convertHTMLFileToPDF (Env.exportThrows [] "output.pdf") "in.html" "out" defaultOutputFilename
    defaultOptions source

/-- A conversion of a source that does not exist. -/
def missingSource : Outcome String :=
  convertHTMLFileToPDF (Env.calm []) "absent.html" "out" defaultOutputFilename defaultOptions
    source

/-- A conversion whose caller passes the option `path`. -/
def pathOption : Outcome String :=
  convertHTMLFileToPDF (Env.calm []) "in.html" "out" defaultOutputFilename
    [("path", .str "elsewhere.pdf")] source

/-- A conversion into a directory that is missing together with its parent. -/
def nestedDirectory : Outcome String :=
  convertHTMLFileToPDF (Env.calm []) "in.html" "a/b" defaultOutputFilename defaultOptions source

/-- The directory of the script in the batch scenarios. -/
def scriptDirectory : String := "/srv/app"

/-- A file system that holds the three sources of the batch scenarios. -/
def batchSources : World :=
  World.initial
    ["/srv/app/HTML_Templates/HTMLTemplates_new_version5/a.html",
      "/srv/app/HTML_Templates/HTMLTemplates_new_version5/b.html",
      "/srv/app/HTML_Templates/HTMLTemplates_new_version5/c.html"]

/-- An outside world in which nothing throws and the input folder lists
`a.html`, `b.txt` and `c.HTML`. -/
def mixedListing : Env :=
  Env.calm ["a.html", "b.txt", "c.HTML"]

/-- An outside world in which the input folder lists `a.html`, `b.html` and
`c.html`, and the export of `b.pdf` throws. -/
def secondFails : Env :=
  Env.exportThrows ["a.html", "b.html", "c.html"] "b.pdf"

/-- The error thrown by the export in `secondFails`. -/
def exportError : JSError :=
  ⟨"Protocol error (Page.printToPDF)"⟩

/-- The error thrown by `browser.close` in `closeFails`. -/
def closeError : JSError :=
  ⟨"Protocol error: Target closed"⟩

/-- An outside world in which the input folder lists `a.html`, `b.html` and
`c.html`, and `browser.close` throws once `b.pdf` has been written: the
conversion of `b.html` fails after its export. -/
def closeFails : Env :=
  { Env.calm ["a.html", "b.html", "c.html"] with
    close := fun w =>
      if w.paths.contains "/srv/app/PDF Leaflets-newv3/b.pdf" then some closeError else none }

end Scenario

/-! ## Paths -/

theorem normalizeChars_head (p : List Char) (h : p.head? = some '/') :
    (path.normalizeChars p).head? = some '/' := by
  unfold path.normalizeChars
  have hp : p ≠ [] := by
    intro hnil
    simp [hnil] at h
  simp only [hp, if_false, h, beq_self_eq_true, if_true]
  split <;> simp

theorem join_isAbsolute (a b : String) (h : path.isAbsolute a = true) :
    path.isAbsolute (path.join a b) = true := by
  unfold path.isAbsolute at h ⊢
  have ha : a.data.head? = some '/' := by simpa using h
  have hne : a.data ≠ [] := by
    intro hnil
    simp [hnil] at ha
  unfold path.join
  by_cases hb : b.data = []
  · simp [List.filter, hne, hb, normalizeChars_head, ha, List.intercalate]
  · simp [List.filter, hne, hb, normalizeChars_head, ha, List.intercalate]


/-! ## Objects -/

theorem get_nil (k : String) : Obj.get [] k = none := rfl

theorem get_cons (k k1 : String) (v : Value) (o : Obj) :
    Obj.get ((k1, v) :: o) k = if k = k1 then some v else Obj.get o k := by
  unfold Obj.get
  by_cases h : k = k1
  · subst h; simp [List.lookup]
  · have hb : (k == k1) = false := by simpa using h
    simp [List.lookup, hb, h]

theorem any_key_eq (o : Obj) (k : String) :
    o.any (fun kv => kv.1 == k) = (Obj.get o k).isSome := by
  induction o with
  | nil => rfl
  | cons kv o ih =>
    obtain ⟨k1, v⟩ := kv
    rw [get_cons, List.any_cons, ih]
    by_cases h : k = k1
    · subst h; simp
    · have h2 : ¬ k1 = k := fun e => h e.symm
      simp [h, h2]

theorem get_map_set (o : Obj) (k k2 : String) (v : Value) :
    Obj.get (o.map (fun kv => if kv.1 == k then (kv.1, v) else kv)) k2 =
      if k2 = k then (Obj.get o k).map (fun _ => v) else Obj.get o k2 := by
  induction o with
  | nil => simp [get_nil]
  | cons kv o ih =>
    obtain ⟨k1, v1⟩ := kv
    by_cases h1 : k1 = k
    · subst h1
      simp only [List.map_cons, beq_self_eq_true, if_true, get_cons, ih]
      by_cases h2 : k2 = k1
      · simp [h2]
      · simp [h2]
    · have hb : ¬ ((k1 == k) = true) := by simpa using h1
      simp only [List.map_cons, if_neg hb, get_cons, ih]
      by_cases h2 : k2 = k
      · subst h2
        have h3 : ¬ k2 = k1 := fun e => h1 e.symm
        simp [h3]
      · simp [h2]

theorem get_append_single (o : Obj) (k k2 : String) (v : Value) :
    Obj.get (o ++ [(k, v)]) k2 =
      match Obj.get o k2 with
      | some x => some x
      | none => if k2 = k then some v else none := by
  induction o with
  | nil => simp [get_cons, get_nil]
  | cons kv o ih =>
    obtain ⟨k1, v1⟩ := kv
    simp only [List.cons_append, get_cons, ih]
    by_cases h : k2 = k1 <;> simp [h]

theorem get_set (o : Obj) (k k2 : String) (v : Value) :
    Obj.get (o.set k v) k2 = if k2 = k then some v else Obj.get o k2 := by
  unfold Obj.set
  rw [any_key_eq]
  cases h : Obj.get o k with
  | none =>
    simp only [Option.isSome_none, Bool.false_eq_true, if_false, get_append_single]
    by_cases h2 : k2 = k
    · subst h2; simp [h]
    · simp only [h2, if_false]
      cases Obj.get o k2 <;> rfl
  | some x =>
    simp only [Option.isSome_some, if_true, get_map_set, h, Option.map_some']

theorem get_copyProperty (s acc : Obj) (k k2 : String) :
    Obj.get (Obj.copyProperty s acc k) k2 =
      if k2 = k ∧ (Obj.get s k).isSome then Obj.get s k else Obj.get acc k2 := by
  unfold Obj.copyProperty
  cases h : Obj.get s k with
  | none => simp
  | some x => simp [get_set]

theorem get_foldl_copyProperty (s : Obj) (keys : List String) (acc : Obj) (k2 : String) :
    Obj.get (keys.foldl (Obj.copyProperty s) acc) k2 =
      if k2 ∈ keys ∧ (Obj.get s k2).isSome then Obj.get s k2 else Obj.get acc k2 := by
  induction keys generalizing acc with
  | nil => simp
  | cons k keys ih =>
    rw [List.foldl_cons, ih, get_copyProperty]
    by_cases h1 : k2 ∈ keys ∧ (Obj.get s k2).isSome = true
    · have h3 : k2 ∈ k :: keys ∧ (Obj.get s k2).isSome = true :=
        ⟨List.mem_cons_of_mem _ h1.1, h1.2⟩
      rw [if_pos h1, if_pos h3]
    · rw [if_neg h1]
      by_cases h2 : k2 = k
      · subst h2
        by_cases h4 : (Obj.get s k2).isSome = true
        · simp [h4]
        · have h5 : ¬ (k2 ∈ k2 :: keys ∧ (Obj.get s k2).isSome = true) := fun c => h4 c.2
          simp [h4]
      · have h6 : ¬ (k2 ∈ k :: keys ∧ (Obj.get s k2).isSome = true) := by
          rintro ⟨hm, hs⟩
          rcases List.mem_cons.1 hm with e | e
          · exact h2 e
          · exact h1 ⟨e, hs⟩
        rw [if_neg h6]
        simp [h2]

theorem mem_keys_of_get (s : Obj) (k : String) (h : (Obj.get s k).isSome = true) :
    k ∈ s.map Prod.fst := by
  induction s with
  | nil => simp [get_nil] at h
  | cons kv s ih =>
    obtain ⟨k1, v1⟩ := kv
    rw [get_cons] at h
    by_cases h1 : k = k1
    · simp [h1]
    · rw [if_neg h1] at h
      simp [ih h]

theorem get_spread (t s : Obj) (k : String) :
    Obj.get (Obj.spread t s) k =
      match Obj.get s k with
      | some v => some v
      | none => Obj.get t k := by
  unfold Obj.spread
  rw [get_foldl_copyProperty]
  cases h : Obj.get s k with
  | none => simp
  | some v =>
    have hm : k ∈ s.map Prod.fst := mem_keys_of_get s k (by simp [h])
    simp [hm]

/-! ## How each call changes the world -/

@[simp] theorem call_paths (w : World) (e : Event) : (w.call e).paths = w.paths := rfl

@[simp] theorem call_browsers (w : World) (e : Event) : (w.call e).browsers = w.browsers := rfl

@[simp] theorem call_trace (w : World) (e : Event) :
    (w.call e).trace = w.trace ++ [⟨e, w.paths⟩] := rfl

@[simp] theorem existsSync_call (p : String) (w : World) (e : Event) :
    fs.existsSync p (w.call e) = fs.existsSync p w := rfl

@[simp] theorem writeDocument_trace (o : Obj) (w : World) :
    (puppeteer.writeDocument o w).trace = w.trace := by
  unfold puppeteer.writeDocument; split <;> rfl

@[simp] theorem writeDocument_browsers (o : Obj) (w : World) :
    (puppeteer.writeDocument o w).browsers = w.browsers := by
  unfold puppeteer.writeDocument; split <;> rfl

@[simp] theorem mem_writeDocument_paths (o : Obj) (w : World) (q : String) :
    q ∈ (puppeteer.writeDocument o w).paths ↔ q ∈ w.paths ∨ o.get "path" = some (.str q) := by
  unfold puppeteer.writeDocument
  split
  · next file h => simp [h, eq_comm]
  · next h =>
    constructor
    · intro hq; exact Or.inl hq
    · rintro (hq | hq)
      · exact hq
      · exact absurd hq (h q)

theorem mkdirSync_ok (env : Env) (dir : String) (w : World) (a : Unit) (w1 : World) :
    fs.mkdirSync env dir w = (.ok a, w1) ↔
      env.mkdirSync dir (w.call (.mkdirSync dir true)) = none ∧
        w1 = ⟨w.paths ++ (fs.parents dir ++ [dir]), w.browsers,
          w.trace ++ [⟨.mkdirSync dir true, w.paths⟩]⟩ := by
  unfold fs.mkdirSync
  cases h : env.mkdirSync dir (w.call (.mkdirSync dir true)) <;>
    simp only [h] <;> simp [Prod.ext_iff, eq_comm]

theorem mkdirSync_error (env : Env) (dir : String) (w : World) (e : JSError) (w1 : World) :
    fs.mkdirSync env dir w = (.error e, w1) ↔
      env.mkdirSync dir (w.call (.mkdirSync dir true)) = some e ∧
        w1 = w.call (.mkdirSync dir true) := by
  unfold fs.mkdirSync
  cases h : env.mkdirSync dir (w.call (.mkdirSync dir true)) <;>
    simp only [h] <;> simp [Prod.ext_iff, eq_comm]

theorem mkdirIfMissing_of_exists (env : Env) (dir : String) (w : World)
    (h : fs.existsSync dir w = true) : fs.mkdirIfMissing env dir w = (.ok (), w) := by
  simp [fs.mkdirIfMissing, h]

theorem mkdirIfMissing_of_missing (env : Env) (dir : String) (w : World)
    (h : fs.existsSync dir w = false) :
    fs.mkdirIfMissing env dir w = fs.mkdirSync env dir w := by
  simp [fs.mkdirIfMissing, h]

theorem launch_ok (env : Env) (w : World) (a : Unit) (w1 : World) :
    puppeteer.launch env w = (.ok a, w1) ↔
      env.launch (w.call (.launch "new")) = none ∧
        w1 = ⟨w.paths, w.browsers + 1, w.trace ++ [⟨.launch "new", w.paths⟩]⟩ := by
  unfold puppeteer.launch
  cases h : env.launch (w.call (.launch "new")) <;>
    simp only [h] <;> simp [Prod.ext_iff, eq_comm]

theorem launch_error (env : Env) (w : World) (e : JSError) (w1 : World) :
    puppeteer.launch env w = (.error e, w1) ↔
      env.launch (w.call (.launch "new")) = some e ∧ w1 = w.call (.launch "new") := by
  unfold puppeteer.launch
  cases h : env.launch (w.call (.launch "new")) <;>
    simp only [h] <;> simp [Prod.ext_iff, eq_comm]

theorem newPage_ok (env : Env) (w : World) (a : Unit) (w1 : World) :
    puppeteer.newPage env w = (.ok a, w1) ↔
      env.newPage (w.call .newPage) = none ∧ w1 = w.call .newPage := by
  unfold puppeteer.newPage
  cases h : env.newPage (w.call .newPage) <;>
    simp only [h] <;> simp [Prod.ext_iff, eq_comm]

theorem newPage_error (env : Env) (w : World) (e : JSError) (w1 : World) :
    puppeteer.newPage env w = (.error e, w1) ↔
      env.newPage (w.call .newPage) = some e ∧ w1 = w.call .newPage := by
  unfold puppeteer.newPage
  cases h : env.newPage (w.call .newPage) <;>
    simp only [h] <;> simp [Prod.ext_iff, eq_comm]

theorem readFileSync_eq (env : Env) (file : String) (w : World) (r : Except JSError String)
    (w1 : World) :
    fs.readFileSync env file w = (r, w1) ↔
      env.readFileSync file (w.call (.readFileSync file "utf8")) = r ∧
        w1 = w.call (.readFileSync file "utf8") := by
  unfold fs.readFileSync
  simp [Prod.ext_iff, eq_comm]

theorem readdirSync_eq (env : Env) (dir : String) (w : World)
    (r : Except JSError (List String)) (w1 : World) :
    fs.readdirSync env dir w = (r, w1) ↔
      env.readdirSync dir (w.call (.readdirSync dir)) = r ∧ w1 = w.call (.readdirSync dir) := by
  unfold fs.readdirSync
  simp [Prod.ext_iff, eq_comm]

theorem setContent_ok (env : Env) (html baseURL : String) (w : World) (a : Unit)
    (w1 : World) :
    puppeteer.setContent env html baseURL w = (.ok a, w1) ↔
      env.setContent html baseURL (w.call (.setContent html "networkidle0" baseURL)) = none ∧
        w1 = w.call (.setContent html "networkidle0" baseURL) := by
  unfold puppeteer.setContent
  cases h : env.setContent html baseURL (w.call (.setContent html "networkidle0" baseURL)) <;>
    simp only [h] <;> simp [Prod.ext_iff, eq_comm]

theorem setContent_error (env : Env) (html baseURL : String) (w : World) (e : JSError)
    (w1 : World) :
    puppeteer.setContent env html baseURL w = (.error e, w1) ↔
      env.setContent html baseURL (w.call (.setContent html "networkidle0" baseURL)) = some e ∧
        w1 = w.call (.setContent html "networkidle0" baseURL) := by
  unfold puppeteer.setContent
  cases h : env.setContent html baseURL (w.call (.setContent html "networkidle0" baseURL)) <;>
    simp only [h] <;> simp [Prod.ext_iff, eq_comm]

theorem pdf_ok (env : Env) (options : Obj) (w : World) (a : Unit) (w1 : World) :
    puppeteer.pdf env options w = (.ok a, w1) ↔
      env.pdf options (w.call (.pdf options)) = none ∧
        w1 = puppeteer.writeDocument options (w.call (.pdf options)) := by
  unfold puppeteer.pdf
  cases h : env.pdf options (w.call (.pdf options)) <;>
    simp only [h] <;> simp [Prod.ext_iff, eq_comm]

theorem pdf_error (env : Env) (options : Obj) (w : World) (e : JSError) (w1 : World) :
    puppeteer.pdf env options w = (.error e, w1) ↔
      env.pdf options (w.call (.pdf options)) = some e ∧ w1 = w.call (.pdf options) := by
  unfold puppeteer.pdf
  cases h : env.pdf options (w.call (.pdf options)) <;>
    simp only [h] <;> simp [Prod.ext_iff, eq_comm]

theorem close_ok (env : Env) (w : World) (a : Unit) (w1 : World) :
    puppeteer.close env w = (.ok a, w1) ↔
      env.close (w.call .close) = none ∧
        w1 = ⟨w.paths, w.browsers - 1, w.trace ++ [⟨.close, w.paths⟩]⟩ := by
  unfold puppeteer.close
  cases h : env.close (w.call .close) <;>
    simp only [h] <;> simp [Prod.ext_iff, eq_comm]

theorem close_error (env : Env) (w : World) (e : JSError) (w1 : World) :
    puppeteer.close env w = (.error e, w1) ↔
      env.close (w.call .close) = some e ∧ w1 = w.call .close := by
  unfold puppeteer.close
  cases h : env.close (w.call .close) <;>
    simp only [h] <;> simp [Prod.ext_iff, eq_comm]

/-! ## What one conversion adds to the trace -/

theorem convert_trace (env : Env) (htmlFilePath outputDirectory outputFilename : String)
    (options : Obj) (w : World) :
    let r := convertHTMLFileToPDF env htmlFilePath outputDirectory outputFilename options w
    r.2.trace = w.trace ++ newEntries w r.2 := by
  cases hh : fs.existsSync htmlFilePath w <;> cases hd : fs.existsSync outputDirectory w
  all_goals simp only [convertHTMLFileToPDF, existsSync_call, hh, hd, mkdirIfMissing_of_exists,
    mkdirIfMissing_of_missing]
  all_goals repeat' split
  all_goals simp_all [mkdirSync_ok, mkdirSync_error, launch_ok, launch_error, newPage_ok,
    newPage_error, readFileSync_eq, setContent_ok, setContent_error, pdf_ok, pdf_error, close_ok,
    close_error, newEntries]

theorem convert_newEvents (env : Env) (htmlFilePath outputDirectory outputFilename : String)
    (options : Obj) (w : World) :
    let r := convertHTMLFileToPDF env htmlFilePath outputDirectory outputFilename options w
    invocations (newEvents w r.2) = [(htmlFilePath, outputDirectory, outputFilename, options)] ∧
    converted (newEvents w r.2) = [] ∧ loggedErrors (newEvents w r.2) = [] ∧
    ∀ o ∈ exports (newEvents w r.2),
      o = pdfArgument (path.join outputDirectory outputFilename) (pdfOptions options) := by
  cases hh : fs.existsSync htmlFilePath w <;> cases hd : fs.existsSync outputDirectory w
  all_goals simp only [convertHTMLFileToPDF, existsSync_call, hh, hd, mkdirIfMissing_of_exists,
    mkdirIfMissing_of_missing]
  all_goals repeat' split
  all_goals simp_all [mkdirSync_ok, mkdirSync_error, launch_ok, launch_error, newPage_ok,
    newPage_error, readFileSync_eq, setContent_ok, setContent_error, pdf_ok, pdf_error, close_ok,
    close_error, newEvents, newEntries, invocations, converted, loggedErrors, exports]

theorem convert_paths (env : Env) (htmlFilePath outputDirectory outputFilename : String)
    (options : Obj) (w : World) :
    let r := convertHTMLFileToPDF env htmlFilePath outputDirectory outputFilename options w
    ∀ q ∈ w.paths, q ∈ r.2.paths := by
  cases hh : fs.existsSync htmlFilePath w <;> cases hd : fs.existsSync outputDirectory w
  all_goals simp only [convertHTMLFileToPDF, existsSync_call, hh, hd, mkdirIfMissing_of_exists,
    mkdirIfMissing_of_missing]
  all_goals repeat' split
  all_goals simp_all [mkdirSync_ok, mkdirSync_error, launch_ok, launch_error, newPage_ok,
    newPage_error, readFileSync_eq, setContent_ok, setContent_error, pdf_ok, pdf_error, close_ok,
    close_error]

theorem convert_ok (env : Env) (htmlFilePath outputDirectory outputFilename : String)
    (options : Obj) (w : World) (p : String)
    (h : (convertHTMLFileToPDF env htmlFilePath outputDirectory outputFilename options w).1
      = .ok p) :
    let r := convertHTMLFileToPDF env htmlFilePath outputDirectory outputFilename options w
    p = path.join outputDirectory outputFilename ∧
    r.2.browsers = w.browsers ∧ launches (newEvents w r.2) = 1 ∧ closes (newEvents w r.2) = 1 ∧
    (newEvents w r.2).map Event.name =
      "convertHTMLFileToPDF" ::
        ((if fs.existsSync outputDirectory w then [] else ["fs.mkdirSync"]) ++
          ["puppeteer.launch", "browser.newPage", "fs.readFileSync", "page.setContent",
            "page.pdf", "browser.close", "console.log"]) := by
  revert h
  cases hh : fs.existsSync htmlFilePath w <;> cases hd : fs.existsSync outputDirectory w
  all_goals simp only [convertHTMLFileToPDF, existsSync_call, hh, hd, mkdirIfMissing_of_exists,
    mkdirIfMissing_of_missing]
  all_goals repeat' split
  all_goals simp_all [mkdirSync_ok, mkdirSync_error, launch_ok, launch_error, newPage_ok,
    newPage_error, readFileSync_eq, setContent_ok, setContent_error, pdf_ok, pdf_error, close_ok,
    close_error, newEvents, newEntries, Event.name, launches, closes]

theorem convert_directory (env : Env) (htmlFilePath outputDirectory outputFilename : String)
    (options : Obj) (w : World) (hs : fs.existsSync htmlFilePath w = true)
    (hd : fs.existsSync outputDirectory w = false) :
    let r := convertHTMLFileToPDF env htmlFilePath outputDirectory outputFilename options w
    (newEvents w r.2).take 2 =
        [.invoke htmlFilePath outputDirectory outputFilename options,
          .mkdirSync outputDirectory true] ∧
      ∀ en ∈ newEntries w r.2, en.event.usesOutput = true →
        outputDirectory ∈ en.paths ∧ ∀ d ∈ fs.parents outputDirectory, d ∈ en.paths := by
  simp only [convertHTMLFileToPDF, existsSync_call, hs, hd, mkdirIfMissing_of_exists,
    mkdirIfMissing_of_missing]
  repeat' split
  all_goals simp_all [mkdirSync_ok, mkdirSync_error, launch_ok, launch_error, newPage_ok,
    newPage_error, readFileSync_eq, setContent_ok, setContent_error, pdf_ok, pdf_error, close_ok,
    close_error, newEvents, newEntries, Event.usesOutput]


theorem convert_error (env : Env) (htmlFilePath outputDirectory outputFilename : String)
    (options : Obj) (w : World) (e : JSError)
    (h : (convertHTMLFileToPDF env htmlFilePath outputDirectory outputFilename options w).1
      = .error e)
    (hpage : "browser.newPage" ∈ (newEvents w
      (convertHTMLFileToPDF env htmlFilePath outputDirectory outputFilename options w).2).map
        Event.name) :
    let r := convertHTMLFileToPDF env htmlFilePath outputDirectory outputFilename options w
    (closes (newEvents w r.2) = 0 ∧ r.2.browsers = w.browsers + 1) ∨
      ((newEvents w r.2).getLast? = some .close ∧ env.close r.2 = some e) := by
  revert h hpage
  cases hh : fs.existsSync htmlFilePath w <;> cases hd : fs.existsSync outputDirectory w
  all_goals simp only [convertHTMLFileToPDF, existsSync_call, hh, hd, mkdirIfMissing_of_exists,
    mkdirIfMissing_of_missing]
  all_goals repeat' split
  all_goals simp_all [mkdirSync_ok, mkdirSync_error, launch_ok, launch_error, newPage_ok,
    newPage_error, readFileSync_eq, setContent_ok, setContent_error, pdf_ok, pdf_error, close_ok,
    close_error, newEvents, newEntries, Event.name, closes]

/-! ## The conversion function -/

/-- C1 (as amended): on every execution of `convertHTMLFileToPDF` that returns
normally, the browser the call launched is closed before the call finishes:
there is one launch and one `browser.close`, the close comes after the PDF
export and before the success message, and no more browser is open after the
call than before it. -/
theorem browser_closed_on_normal_return (env : Env)
    (htmlFilePath outputDirectory outputFilename : String) (options : Obj) (w : World)
    (p : String) (after : World)
    (hrun : convertHTMLFileToPDF env htmlFilePath outputDirectory outputFilename options w
      = (.ok p, after)) :
    launches (newEvents w after) = 1 ∧ closes (newEvents w after) = 1 ∧
    after.browsers = w.browsers ∧
    (newEvents w after).map Event.name =
      "convertHTMLFileToPDF" ::
        ((if fs.existsSync outputDirectory w then [] else ["fs.mkdirSync"]) ++
          ["puppeteer.launch", "browser.newPage", "fs.readFileSync", "page.setContent",
            "page.pdf", "browser.close", "console.log"]) := by
  have h := convert_ok env htmlFilePath outputDirectory outputFilename options w p
    (by rw [hrun])
  simp only [hrun] at h
  exact ⟨h.2.2.1, h.2.2.2.1, h.2.1, h.2.2.2.2⟩

/-- Witness for C1 (as amended): a conversion in which nothing throws. -/
theorem browser_closed_on_normal_return_witness :
    Scenario.relativeRun = (.ok "downloaded/document.pdf", Scenario.relativeRun.2) ∧
    launches (newEvents Scenario.source Scenario.relativeRun.2) = 1 ∧
    closes (newEvents Scenario.source Scenario.relativeRun.2) = 1 ∧
    Scenario.relativeRun.2.browsers = Scenario.source.browsers :=
  ⟨rfl,
    (browser_closed_on_normal_return (Env.calm []) "in.html" "downloaded" "document.pdf"
      defaultOptions Scenario.source "downloaded/document.pdf" Scenario.relativeRun.2 rfl).1,
    (browser_closed_on_normal_return (Env.calm []) "in.html" "downloaded" "document.pdf"
      defaultOptions Scenario.source "downloaded/document.pdf" Scenario.relativeRun.2 rfl).2.1,
    (browser_closed_on_normal_return (Env.calm []) "in.html" "downloaded" "document.pdf"
      defaultOptions Scenario.source "downloaded/document.pdf" Scenario.relativeRun.2 rfl).2.2.1⟩

/-- Counterexample to C1 as stated: when the PDF export throws, the browser
has been launched, the error reaches the caller, `browser.close` was never
called and the browser is still open. -/
theorem browser_left_open_when_export_throws :
    Scenario.exportFails.1 = .error ⟨"Protocol error (Page.printToPDF)"⟩ ∧
    launches (newEvents Scenario.source Scenario.exportFails.2) = 1 ∧
    closes (newEvents Scenario.source Scenario.exportFails.2) = 0 ∧
    Scenario.source.browsers = 0 ∧ Scenario.exportFails.2.browsers = 1 :=
  ⟨rfl, rfl, rfl, rfl, rfl⟩

/-- On every execution of `convertHTMLFileToPDF` that throws after the page
was requested, so after a successful launch, either `browser.close` was
never called and one more browser is open than before the call, or the
error is the one `browser.close` itself threw. -/
theorem browser_left_open_on_failure (env : Env)
    (htmlFilePath outputDirectory outputFilename : String) (options : Obj) (w : World)
    (e : JSError) (after : World)
    (hrun : convertHTMLFileToPDF env htmlFilePath outputDirectory outputFilename options w
      = (.error e, after))
    (hpage : "browser.newPage" ∈ (newEvents w after).map Event.name) :
    (closes (newEvents w after) = 0 ∧ after.browsers = w.browsers + 1) ∨
      ((newEvents w after).getLast? = some .close ∧ env.close after = some e) := by
  have h := convert_error env htmlFilePath outputDirectory outputFilename options w e
    (by rw [hrun]) (by rw [hrun]; exact hpage)
  simp only [hrun] at h
  exact h

/-- C2: when `sourcePath` does not exist, `convertHTMLFileToPDF` throws the
error `HTML file not found: <sourcePath>`, whatever the other arguments are;
it has made no call at all by then (no directory created, no browser
launched, no export), and the file system is unchanged. -/
theorem missing_source_fails_before_launch (env : Env)
    (htmlFilePath outputDirectory outputFilename : String) (options : Obj) (w : World)
    (r : Except JSError String) (after : World)
    (hmissing : fs.existsSync htmlFilePath w = false)
    (hrun : convertHTMLFileToPDF env htmlFilePath outputDirectory outputFilename options w
      = (r, after)) :
    r = .error ⟨"HTML file not found: " ++ htmlFilePath⟩ ∧
    newEvents w after = [.invoke htmlFilePath outputDirectory outputFilename options] ∧
    launches (newEvents w after) = 0 ∧ exports (newEvents w after) = [] ∧
    after.paths = w.paths ∧ after.browsers = w.browsers := by
  simp only [convertHTMLFileToPDF, existsSync_call, hmissing] at hrun
  simp only [Bool.not_false, if_true, Prod.mk.injEq] at hrun
  obtain ⟨hr, hw⟩ := hrun
  subst hr hw
  simp [newEvents, newEntries, launches, exports]

/-- Witness for C2: the source `absent.html` in a file system that holds only
`in.html`. -/
theorem missing_source_fails_before_launch_witness :
    fs.existsSync "absent.html" Scenario.source = false ∧
    Scenario.missingSource.1 = .error ⟨"HTML file not found: absent.html"⟩ ∧
    Scenario.missingSource.2.paths = ["in.html"] :=
  ⟨rfl,
    (missing_source_fails_before_launch (Env.calm []) "absent.html" "out" defaultOutputFilename
      defaultOptions Scenario.source Scenario.missingSource.1 Scenario.missingSource.2 rfl
      rfl).1,
    (missing_source_fails_before_launch (Env.calm []) "absent.html" "out" defaultOutputFilename
      defaultOptions Scenario.source Scenario.missingSource.1 Scenario.missingSource.2 rfl
      rfl).2.2.2.2.1⟩


/-- The path a successful conversion returns is `path.join(outputDirectory,
outputFilename)`. -/
theorem returned_path (env : Env) (htmlFilePath outputDirectory outputFilename : String)
    (options : Obj) (w : World) (p : String) (after : World)
    (hrun : convertHTMLFileToPDF env htmlFilePath outputDirectory outputFilename options w
      = (.ok p, after)) :
    p = path.join outputDirectory outputFilename :=
  (convert_ok env htmlFilePath outputDirectory outputFilename options w p (by rw [hrun])).1

/-- C8 (as amended): on every successful call of `convertHTMLFileToPDF` with
an absolute `outputDirectory`, the returned output path is absolute, for
every `outputFilename`. -/
theorem returned_path_absolute_of_absolute_directory (env : Env)
    (htmlFilePath outputDirectory outputFilename : String) (options : Obj) (w : World)
    (p : String) (after : World)
    (habsolute : path.isAbsolute outputDirectory = true)
    (hrun : convertHTMLFileToPDF env htmlFilePath outputDirectory outputFilename options w
      = (.ok p, after)) :
    path.isAbsolute p = true := by
  rw [returned_path env htmlFilePath outputDirectory outputFilename options w p after hrun]
  exact join_isAbsolute outputDirectory outputFilename habsolute

/-- Witness for C8 (as amended): a conversion into `/srv/out`. -/
theorem returned_path_absolute_of_absolute_directory_witness :
    path.isAbsolute "/srv/out" = true ∧
    Scenario.absoluteRun = (.ok "/srv/out/document.pdf", Scenario.absoluteRun.2) ∧
    path.isAbsolute "/srv/out/document.pdf" = true :=
  ⟨rfl, rfl,
    returned_path_absolute_of_absolute_directory (Env.calm []) "in.html" "/srv/out"
      "document.pdf" defaultOptions Scenario.source "/srv/out/document.pdf"
      Scenario.absoluteRun.2 rfl rfl⟩

/-- Counterexample to C8 as stated: the successful conversion into the
relative directory `downloaded` returns `downloaded/document.pdf`, which is
not an absolute path. -/
theorem returned_path_relative_for_relative_directory :
    Scenario.relativeRun.1 = .ok "downloaded/document.pdf" ∧
    path.isAbsolute "downloaded/document.pdf" = false :=
  ⟨rfl, rfl⟩

/-- C10: when the source exists and `outputDirectory` does not, the first call
`convertHTMLFileToPDF` makes is `fs.mkdirSync(outputDirectory, { recursive:
true })`, and at every browser launch and every PDF export of the call the
directory and all its parents exist. -/
theorem directory_created_before_launch (env : Env)
    (htmlFilePath outputDirectory outputFilename : String) (options : Obj) (w : World)
    (r : Except JSError String) (after : World)
    (hsource : fs.existsSync htmlFilePath w = true)
    (hmissing : fs.existsSync outputDirectory w = false)
    (hrun : convertHTMLFileToPDF env htmlFilePath outputDirectory outputFilename options w
      = (r, after)) :
    (newEvents w after).take 2 =
        [.invoke htmlFilePath outputDirectory outputFilename options,
          .mkdirSync outputDirectory true] ∧
      ∀ en ∈ newEntries w after, en.event.usesOutput = true →
        outputDirectory ∈ en.paths ∧ ∀ d ∈ fs.parents outputDirectory, d ∈ en.paths := by
  have h := convert_directory env htmlFilePath outputDirectory outputFilename options w hsource
    hmissing
  simp only [hrun] at h
  exact h

/-- Witness for C10: the directory `a/b` is missing together with its parent
`a`; the conversion succeeds and leaves both. -/
theorem directory_created_before_launch_witness :
    fs.existsSync "in.html" Scenario.source = true ∧
    fs.existsSync "a/b" Scenario.source = false ∧
    Scenario.nestedDirectory.1 = .ok "a/b/output.pdf" ∧
    Scenario.nestedDirectory.2.paths = ["in.html", "a", "a/b", "a/b/output.pdf"] ∧
    ∀ en ∈ newEntries Scenario.source Scenario.nestedDirectory.2, en.event.usesOutput = true →
      "a/b" ∈ en.paths ∧ ∀ d ∈ fs.parents "a/b", d ∈ en.paths :=
  ⟨rfl, rfl, rfl, rfl,
    (directory_created_before_launch (Env.calm []) "in.html" "a/b" defaultOutputFilename
      defaultOptions Scenario.source Scenario.nestedDirectory.1 Scenario.nestedDirectory.2
      rfl rfl rfl).2⟩

/-! ## Output filenames -/

/-- C3, evaluated at the name `a.html.html`: the batch filter retains it, and
`file.replace('.html', '.pdf')` replaces the first `.html`, not the trailing
one: the output filename is `a.pdf.html`, not the name minus its last five
characters followed by `.pdf` (`a.html.pdf`), and it does not end with
`.pdf`. -/
theorem replace_first_occurrence :
    htmlFiles ["a.html.html"] = ["a.html.html"] ∧
    outputFileName "a.html.html" = "a.pdf.html" ∧
    JSString.dropRight "a.html.html" 5 ++ ".pdf" = "a.html.pdf" ∧
    JSString.endsWith (outputFileName "a.html.html") ".pdf" = false := by
  decide

/-- C4, evaluated at the names `a.html.pdf.html` and `a.pdf.html.html`: both
are retained by the batch filter, they are distinct, and `main` derives the
same output filename `a.pdf.pdf.html` for both. -/
theorem output_filenames_collide :
    htmlFiles ["a.html.pdf.html", "a.pdf.html.html"] = ["a.html.pdf.html", "a.pdf.html.html"] ∧
    "a.html.pdf.html" ≠ "a.pdf.html.html" ∧
    outputFileName "a.html.pdf.html" = "a.pdf.pdf.html" ∧
    outputFileName "a.pdf.html.html" = "a.pdf.pdf.html" := by
  decide

theorem replaceChars_trailing (pat rep stem : List Char)
    (honly : ∀ i, i < stem.length → pat.isPrefixOf ((stem ++ pat).drop i) = false) :
    JSString.replaceChars pat rep (stem ++ pat) = stem ++ rep := by
  induction stem with
  | nil =>
    cases pat with
    | nil => simp [JSString.replaceChars]
    | cons c cs => simp [JSString.replaceChars]
  | cons c t ih =>
    have h0 : pat.isPrefixOf (c :: (t ++ pat)) = false := by
      simpa using honly 0 (by simp)
    have ht : ∀ i, i < t.length → pat.isPrefixOf ((t ++ pat).drop i) = false := by
      intro i hi
      simpa using honly (i + 1) (by simpa using hi)
    have hcons : (c :: t) ++ pat = c :: (t ++ pat) := rfl
    rw [hcons, JSString.replaceChars, if_neg (by simp [h0]), ih ht]
    rfl

/-- Where the derivation is right: for a name `stem ++ ".html"` in which
`.html` occurs nowhere before the end, the output filename is the stem
followed by `.pdf`. -/
theorem outputFileName_of_trailing_occurrence (stem : String)
    (honly : ∀ i, i < stem.data.length →
      ".html".data.isPrefixOf ((stem ++ ".html").data.drop i) = false) :
    outputFileName (stem ++ ".html") = stem ++ ".pdf" := by
  unfold outputFileName JSString.replace
  apply String.ext
  rw [String.data_append] at honly ⊢
  rw [String.data_append]
  exact replaceChars_trailing _ _ _ honly

/-- The name `report.html` is such a name: its output filename is
`report.pdf`. -/
theorem outputFileName_of_trailing_occurrence_witness :
    outputFileName ("report" ++ ".html") = "report" ++ ".pdf" :=
  outputFileName_of_trailing_occurrence "report" (by decide)

/-! ## Options -/

theorem literal_defaults :
    Obj.literal [("format", .str "A4"), ("printBackground", .bool true)] =
      [("format", .str "A4"), ("printBackground", .bool true)] := rfl

theorem literal_path (outputPath : String) :
    Obj.literal [("path", .str outputPath)] = [("path", .str outputPath)] := rfl

/-- C5, evaluated at a caller who passes the option `path`: the conversion
returns `out/output.pdf`, which is `path.join(outputDirectory,
outputFilename)`, but the path handed to the PDF export is the caller's
`elsewhere.pdf`; the document is written there and nothing exists at the
returned path. -/
theorem export_path_overridden_by_option :
    Scenario.pathOption.1 = .ok "out/output.pdf" ∧
    path.join "out" defaultOutputFilename = "out/output.pdf" ∧
    (exports (newEvents Scenario.source Scenario.pathOption.2)).map (fun o => o.get "path") =
      [some (.str "elsewhere.pdf")] ∧
    Scenario.pathOption.2.paths = ["in.html", "out", "elsewhere.pdf"] ∧
    fs.existsSync "out/output.pdf" Scenario.pathOption.2 = false :=
  ⟨rfl, rfl, rfl, rfl, rfl⟩

/-- For a caller whose options have no key `path`, every PDF export of the
call is handed the path `path.join(outputDirectory, outputFilename)`. -/
theorem export_path_without_path_option (env : Env)
    (htmlFilePath outputDirectory outputFilename : String) (options : Obj) (w : World)
    (r : Except JSError String) (after : World)
    (hnopath : options.get "path" = none)
    (hrun : convertHTMLFileToPDF env htmlFilePath outputDirectory outputFilename options w
      = (r, after)) :
    ∀ arg ∈ exports (newEvents w after),
      arg.get "path" = some (.str (path.join outputDirectory outputFilename)) := by
  intro arg harg
  have h := (convert_newEvents env htmlFilePath outputDirectory outputFilename options
    w).2.2.2
  simp only [hrun] at h
  rw [h arg harg, pdfArgument, pdfOptions, get_spread, get_spread, hnopath, literal_defaults,
    literal_path]
  rfl

/-- C9: the object `pdfOptions` is the defaults `{format: 'A4',
printBackground: true}` overridden key by key by the caller's options: at
every key it holds the caller's value when the caller supplies the key and
the default otherwise (none for a key outside the defaults). With the
options omitted it is exactly the two defaults. The argument of every PDF
export of the call holds, at every key, the value of `pdfOptions`, and
besides only the output path at the key `path`. -/
theorem pdfOptions_override (env : Env)
    (htmlFilePath outputDirectory outputFilename : String) (options : Obj) (w : World)
    (k : String) :
    (pdfOptions options).get k =
      (match options.get k with
        | some v => some v
        | none => Obj.get [("format", .str "A4"), ("printBackground", .bool true)] k) ∧
    pdfOptions defaultOptions = [("format", .str "A4"), ("printBackground", .bool true)] ∧
    ∀ arg ∈ exports (newEvents w
        (convertHTMLFileToPDF env htmlFilePath outputDirectory outputFilename options w).2),
      arg.get k =
        match (pdfOptions options).get k with
        | some v => some v
        | none => Obj.get [("path", .str (path.join outputDirectory outputFilename))] k := by
  refine ⟨?_, rfl, ?_⟩
  · rw [pdfOptions, get_spread, literal_defaults]
  · intro arg harg
    have h := (convert_newEvents env htmlFilePath outputDirectory outputFilename options
      w).2.2.2
    rw [h arg harg, pdfArgument, get_spread, literal_path]


/-! ## The batch -/

theorem endsWith_iff (file suffix : String) :
    JSString.endsWith file suffix = true ↔ ∃ stem : String, file = stem ++ suffix := by
  unfold JSString.endsWith
  rw [List.isSuffixOf_iff_suffix]
  constructor
  · rintro ⟨t, ht⟩
    refine ⟨⟨t⟩, ?_⟩
    apply String.ext
    rw [String.data_append, ht]
  · rintro ⟨stem, rfl⟩
    exact ⟨stem.data, by rw [String.data_append]⟩

theorem mainOptions_eq :
    mainOptions = [("format", .str "A4"), ("landscape", .bool false)] := rfl

theorem newEntries_trans (w w1 w2 : World) (h1 : w1.trace = w.trace ++ newEntries w w1)
    (h2 : w2.trace = w1.trace ++ newEntries w1 w2) :
    w2.trace = w.trace ++ newEntries w w2 ∧
      newEntries w w2 = newEntries w w1 ++ newEntries w1 w2 := by
  have h3 : w2.trace = w.trace ++ (newEntries w w1 ++ newEntries w1 w2) := by
    rw [h2, h1, List.append_assoc]
  have h4 : newEntries w w2 = newEntries w w1 ++ newEntries w1 w2 := by
    show w2.trace.drop w.trace.length = _
    rw [h3, List.drop_left]
  exact ⟨by rw [h4]; exact h3, h4⟩


theorem newEvents_trans (w w1 w2 : World) (h1 : w1.trace = w.trace ++ newEntries w w1)
    (h2 : w2.trace = w1.trace ++ newEntries w1 w2) :
    newEvents w w2 = newEvents w w1 ++ newEvents w1 w2 := by
  unfold newEvents
  rw [(newEntries_trans w w1 w2 h1 h2).2, List.map_append]

theorem newEntries_call (w : World) (e : Event) : newEntries w (w.call e) = [⟨e, w.paths⟩] := by
  simp [newEntries]

theorem pdfArgument_get_path (outputPath : String) (options : Obj)
    (hnopath : options.get "path" = none) :
    (pdfArgument outputPath (pdfOptions options)).get "path" = some (.str outputPath) := by
  rw [pdfArgument, pdfOptions, get_spread, get_spread, hnopath, literal_defaults, literal_path]
  rfl

theorem convert_written (env : Env) (htmlFilePath outputDirectory outputFilename : String)
    (options : Obj) (w : World) (p : String) (hnopath : options.get "path" = none)
    (h : (convertHTMLFileToPDF env htmlFilePath outputDirectory outputFilename options w).1
      = .ok p) :
    path.join outputDirectory outputFilename ∈
      (convertHTMLFileToPDF env htmlFilePath outputDirectory outputFilename options w).2.paths := by
  have hget := fun q => pdfArgument_get_path q options hnopath
  revert h
  cases hh : fs.existsSync htmlFilePath w <;> cases hd : fs.existsSync outputDirectory w
  all_goals simp only [convertHTMLFileToPDF, existsSync_call, hh, hd, mkdirIfMissing_of_exists,
    mkdirIfMissing_of_missing]
  all_goals repeat' split
  all_goals simp_all [mkdirSync_ok, mkdirSync_error, launch_ok, launch_error, newPage_ok,
    newPage_error, readFileSync_eq, setContent_ok, setContent_error, pdf_ok, pdf_error, close_ok,
    close_error]

/-- What one conversion of the batch contributes, in terms of the world it
starts from and the world it leaves. -/
theorem convert_step (env : Env) (htmlFilePath outputDirectory outputFilename : String)
    (options : Obj) (w : World) (r : Except JSError String) (after : World)
    (hrun : convertHTMLFileToPDF env htmlFilePath outputDirectory outputFilename options w
      = (r, after)) :
    after.trace = w.trace ++ newEntries w after ∧
    invocations (newEvents w after) =
      [(htmlFilePath, outputDirectory, outputFilename, options)] ∧
    converted (newEvents w after) = [] ∧ loggedErrors (newEvents w after) = [] ∧
    (∀ q ∈ w.paths, q ∈ after.paths) := by
  have h1 := convert_trace env htmlFilePath outputDirectory outputFilename options w
  have h2 := convert_newEvents env htmlFilePath outputDirectory outputFilename options w
  have h3 := convert_paths env htmlFilePath outputDirectory outputFilename options w
  simp only [hrun] at h1 h2 h3
  exact ⟨h1, h2.1, h2.2.1, h2.2.2.1, h3⟩

theorem mainLoop_append (env : Env) (folder out : String) (pre rest : List String)
    (w w1 : World) (hpre : mainLoop env folder out pre w = (.ok (), w1)) :
    mainLoop env folder out (pre ++ rest) w = mainLoop env folder out rest w1 := by
  induction pre generalizing w with
  | nil =>
    simp only [mainLoop, Prod.mk.injEq, true_and] at hpre
    subst hpre
    rfl
  | cons file pre ih =>
    simp only [List.cons_append, mainLoop] at hpre ⊢
    split at hpre
    · simp at hpre
    · exact ih _ hpre

/-- The loop of `main` over files that all convert: every file is invoked
and reported once, in order, nothing is logged as an error, what existed
still exists, and every output exists at the end. -/
theorem mainLoop_ok (env : Env) (folder out : String) (files : List String) (w after : World)
    (hrun : mainLoop env folder out files w = (.ok (), after)) :
    after.trace = w.trace ++ newEntries w after ∧
    invocations (newEvents w after) =
      files.map (fun file => (path.join folder file, out, outputFileName file, mainOptions)) ∧
    converted (newEvents w after) = files.map (fun file => (file, outputFileName file)) ∧
    loggedErrors (newEvents w after) = [] ∧
    (∀ q ∈ w.paths, q ∈ after.paths) ∧
    (∀ file ∈ files, path.join out (outputFileName file) ∈ after.paths) := by
  induction files generalizing w with
  | nil =>
    simp only [mainLoop, Prod.mk.injEq, true_and] at hrun
    subst hrun
    simp [newEvents, newEntries, invocations, converted, loggedErrors]
  | cons file files ih =>
    simp only [mainLoop] at hrun
    split at hrun
    · simp at hrun
    · next p w1 heq =>
      obtain ⟨ht1, hi1, hc1, he1, hp1⟩ := convert_step env _ _ _ _ w _ w1 heq
      have hw := convert_written env (path.join folder file) out (outputFileName file)
        mainOptions w p rfl (by rw [heq])
      rw [heq] at hw
      obtain ⟨ht3, hi3, hc3, he3, hp3, ho3⟩ := ih _ hrun
      have ht2 : (w1.call (.logConverted file (outputFileName file))).trace
          = w1.trace ++ newEntries w1 (w1.call (.logConverted file (outputFileName file))) := by
        rw [newEntries_call]; rfl
      have hA := newEntries_trans w w1 _ ht1 ht2
      have hB := newEntries_trans w _ after hA.1 ht3
      have hev : newEvents w after = newEvents w w1 ++
          (Event.logConverted file (outputFileName file) ::
            newEvents (w1.call (.logConverted file (outputFileName file))) after) := by
        unfold newEvents
        rw [hB.2, hA.2, newEntries_call]
        simp
      refine ⟨hB.1, ?_, ?_, ?_, ?_, ?_⟩
      · rw [hev]
        simp only [invocations, List.filterMap_append, List.filterMap_cons] at hi1 hi3 ⊢
        rw [hi1, hi3]
        rfl
      · rw [hev]
        simp only [converted, List.filterMap_append, List.filterMap_cons] at hc1 hc3 ⊢
        rw [hc1, hc3]
        rfl
      · rw [hev]
        simp only [loggedErrors, List.filterMap_append, List.filterMap_cons] at he1 he3 ⊢
        rw [he1, he3]
        rfl
      · intro q hq
        exact hp3 q (hp1 q hq)
      · intro f hf
        rcases List.mem_cons.1 hf with rfl | hf
        · exact hp3 _ hw
        · exact ho3 f hf


theorem convert_added_paths (env : Env) (htmlFilePath outputDirectory outputFilename : String)
    (options : Obj) (w : World) (hnopath : options.get "path" = none) :
    ∀ q ∈ (convertHTMLFileToPDF env htmlFilePath outputDirectory outputFilename options w).2.paths,
      q ∈ w.paths ∨ q ∈ fs.parents outputDirectory ∨ q = outputDirectory ∨
        q = path.join outputDirectory outputFilename := by
  have hget := fun q => pdfArgument_get_path q options hnopath
  cases hh : fs.existsSync htmlFilePath w <;> cases hd : fs.existsSync outputDirectory w
  all_goals simp only [convertHTMLFileToPDF, existsSync_call, hh, hd, mkdirIfMissing_of_exists,
    mkdirIfMissing_of_missing]
  all_goals repeat' split
  all_goals simp_all [mkdirSync_ok, mkdirSync_error, launch_ok, launch_error, newPage_ok,
    newPage_error, readFileSync_eq, setContent_ok, setContent_error, pdf_ok, pdf_error, close_ok,
    close_error]
  all_goals
    intro q hq
    have hsymm := @eq_comm _ (path.join outputDirectory outputFilename) q
    tauto

theorem mainLoop_added_paths (env : Env) (folder out : String) (files : List String)
    (w after : World) (hrun : mainLoop env folder out files w = (.ok (), after)) :
    ∀ q ∈ after.paths, q ∈ w.paths ∨ q ∈ fs.parents out ∨ q = out ∨
      ∃ file ∈ files, q = path.join out (outputFileName file) := by
  induction files generalizing w with
  | nil =>
    simp only [mainLoop, Prod.mk.injEq, true_and] at hrun
    subst hrun
    intro q hq
    exact Or.inl hq
  | cons file files ih =>
    simp only [mainLoop] at hrun
    split at hrun
    · simp at hrun
    · next p w1 heq =>
      have h1 := convert_added_paths env (path.join folder file) out (outputFileName file)
        mainOptions w rfl
      rw [heq] at h1
      intro q hq
      rcases ih _ hrun q hq with h | h | h | ⟨f, hf, h⟩
      · rcases h1 q h with h | h | h | h
        · exact Or.inl h
        · exact Or.inr (Or.inl h)
        · exact Or.inr (Or.inr (Or.inl h))
        · exact Or.inr (Or.inr (Or.inr ⟨file, List.mem_cons_self _ _, h⟩))
      · exact Or.inr (Or.inl h)
      · exact Or.inr (Or.inr (Or.inl h))
      · exact Or.inr (Or.inr (Or.inr ⟨f, List.mem_cons_of_mem _ hf, h⟩))

theorem mainSetup_added_paths (env : Env) (dirname : String) (w : World) :
    ∀ q ∈ (mainSetup env dirname w).2.paths,
      q ∈ w.paths ∨ q ∈ fs.parents (mainOutputDirectory dirname) ∨
        q = mainOutputDirectory dirname := by
  cases hd : fs.existsSync (mainOutputDirectory dirname) w
  all_goals simp only [mainSetup, hd, mkdirIfMissing_of_exists, mkdirIfMissing_of_missing]
  all_goals repeat' split
  all_goals simp_all [mkdirSync_ok, mkdirSync_error, readdirSync_eq, fs.readdirSync]

theorem mainSetup_step (env : Env) (dirname : String) (w : World) :
    (mainSetup env dirname w).2.trace = w.trace ++ newEntries w (mainSetup env dirname w).2 ∧
    invocations (newEvents w (mainSetup env dirname w).2) = [] ∧
    converted (newEvents w (mainSetup env dirname w).2) = [] ∧
    loggedErrors (newEvents w (mainSetup env dirname w).2) = [] ∧
    (∀ q ∈ w.paths, q ∈ (mainSetup env dirname w).2.paths) := by
  cases hd : fs.existsSync (mainOutputDirectory dirname) w
  all_goals simp only [mainSetup, hd, mkdirIfMissing_of_exists, mkdirIfMissing_of_missing]
  all_goals repeat' split
  all_goals simp_all [mkdirSync_ok, mkdirSync_error, readdirSync_eq, fs.readdirSync, newEvents,
    newEntries, invocations, converted, loggedErrors]

/-- C6: for every listing `files` of the input directory, when the `try` block
of `main` completes without an error, `main` has invoked
`convertHTMLFileToPDF` once for each retained entry, in listing order, and
for nothing else, each time on the entry's path in the input folder, into the
output folder, with the derived output filename and the options `{format:
'A4', landscape: false}`; the retained entries are exactly the listed ones
whose name is some stem followed by the lowercase `.html`. -/
theorem main_invokes_each_retained_file (env : Env) (dirname : String) (w : World)
    (files : List String) (listed after : World)
    (hlisting : mainSetup env dirname w = (.ok files, listed))
    (hok : mainTry env dirname w = (.ok (), after)) :
    main env dirname w = after ∧
    invocations (newEvents w after) =
      (htmlFiles files).map (fun file =>
        (path.join (htmlFolderPath dirname) file, mainOutputDirectory dirname,
          outputFileName file, [("format", Value.str "A4"), ("landscape", Value.bool false)])) ∧
    loggedErrors (newEvents w after) = [] ∧
    ∀ file, file ∈ htmlFiles files ↔ file ∈ files ∧ ∃ stem : String, file = stem ++ ".html" := by
  have hmain : main env dirname w = after := by simp only [main, hok]
  have hloop : mainLoop env (htmlFolderPath dirname) (mainOutputDirectory dirname)
      (htmlFiles files) listed = (.ok (), after) := by
    simpa only [mainTry, hlisting] using hok
  obtain ⟨ht1, hi1, -, he1, -⟩ := mainSetup_step env dirname w
  rw [hlisting] at ht1 hi1 he1
  obtain ⟨ht2, hi2, -, he2, -, -⟩ := mainLoop_ok env _ _ _ listed after hloop
  have hev := newEvents_trans w listed after ht1 ht2
  refine ⟨hmain, ?_, ?_, ?_⟩
  · rw [hev]
    simp only [invocations, List.filterMap_append] at hi1 hi2 ⊢
    rw [hi1, hi2, List.nil_append, mainOptions_eq]
  · rw [hev]
    simp only [loggedErrors, List.filterMap_append] at he1 he2 ⊢
    rw [he1, he2]
    rfl
  · intro file
    simp only [htmlFiles, List.mem_filter, endsWith_iff]

/-- Witness for C6: the listing `a.html`, `b.txt`, `c.HTML`; only `a.html` is
converted. -/
theorem main_invokes_each_retained_file_witness :
    mainSetup Scenario.mixedListing Scenario.scriptDirectory Scenario.batchSources =
      (.ok ["a.html", "b.txt", "c.HTML"],
        (mainSetup Scenario.mixedListing Scenario.scriptDirectory Scenario.batchSources).2) ∧
    (mainTry Scenario.mixedListing Scenario.scriptDirectory Scenario.batchSources).1 = .ok () ∧
    htmlFiles ["a.html", "b.txt", "c.HTML"] = ["a.html"] ∧
    invocations (newEvents Scenario.batchSources
        (main Scenario.mixedListing Scenario.scriptDirectory Scenario.batchSources)) =
      [("/srv/app/HTML_Templates/HTMLTemplates_new_version5/a.html",
        "/srv/app/PDF Leaflets-newv3", "a.pdf",
        [("format", Value.str "A4"), ("landscape", Value.bool false)])] :=
  ⟨rfl, rfl, by decide,
    (main_invokes_each_retained_file Scenario.mixedListing Scenario.scriptDirectory
      Scenario.batchSources ["a.html", "b.txt", "c.HTML"]
      (mainSetup Scenario.mixedListing Scenario.scriptDirectory Scenario.batchSources).2
      (main Scenario.mixedListing Scenario.scriptDirectory Scenario.batchSources)
      rfl rfl).2.1⟩

/-- C7 (as amended): when the retained files are `pre`, then `file`, then
`post`, the loop over `pre` completes (each of those conversions returns
normally) and the conversion of `file` that follows throws `e`, then `main`
invokes exactly the files of `pre` and `file`, in order, and none of `post`;
it reports exactly the files of `pre` as converted, and the output of each
of them exists afterwards; whatever else exists afterwards and did not
before is the output folder, one of its parents, or the output of `file` or
of a file of `pre`, never the output of a file of `post`; and `main` itself
completes: `e` is caught and logged once, as the last thing `main` does. -/
theorem main_stops_at_first_failure (env : Env) (dirname : String) (w : World)
    (files pre post : List String) (file : String) (e : JSError)
    (listed reached failed : World)
    (hlisting : mainSetup env dirname w = (.ok files, listed))
    (hretained : htmlFiles files = pre ++ file :: post)
    (hfirst : mainLoop env (htmlFolderPath dirname) (mainOutputDirectory dirname) pre listed
      = (.ok (), reached))
    (hfails : convertHTMLFileToPDF env (path.join (htmlFolderPath dirname) file)
      (mainOutputDirectory dirname) (outputFileName file) mainOptions reached
      = (.error e, failed)) :
    main env dirname w = failed.call (.logError e) ∧
    invocations (newEvents w (main env dirname w)) =
      (pre ++ [file]).map (fun file =>
        (path.join (htmlFolderPath dirname) file, mainOutputDirectory dirname,
          outputFileName file, [("format", Value.str "A4"), ("landscape", Value.bool false)])) ∧
    converted (newEvents w (main env dirname w)) =
      pre.map (fun file => (file, outputFileName file)) ∧
    loggedErrors (newEvents w (main env dirname w)) = [e] ∧
    (∀ done ∈ pre,
      fs.existsSync (path.join (mainOutputDirectory dirname) (outputFileName done))
        (main env dirname w) = true) ∧
    (∀ q ∈ (main env dirname w).paths,
      q ∈ w.paths ∨ q ∈ fs.parents (mainOutputDirectory dirname) ∨
        q = mainOutputDirectory dirname ∨
        ∃ tried ∈ pre ++ [file],
          q = path.join (mainOutputDirectory dirname) (outputFileName tried)) := by
  have hloop : mainLoop env (htmlFolderPath dirname) (mainOutputDirectory dirname)
      (htmlFiles files) listed = (.error e, failed) := by
    rw [hretained, mainLoop_append env _ _ pre (file :: post) listed reached hfirst]
    simp only [mainLoop, hfails]
  have htry : mainTry env dirname w = (.error e, failed) := by
    simp only [mainTry, hlisting, hloop]
  have hmain : main env dirname w = failed.call (.logError e) := by
    simp only [main, htry]
  obtain ⟨ht1, hi1, hc1, he1, -⟩ := mainSetup_step env dirname w
  rw [hlisting] at ht1 hi1 hc1 he1
  obtain ⟨ht2, hi2, hc2, he2, -, ho2⟩ := mainLoop_ok env _ _ _ listed reached hfirst
  obtain ⟨ht3, hi3, hc3, he3, hp3⟩ := convert_step env _ _ _ _ reached _ failed hfails
  have ht4 : (failed.call (.logError e)).trace
      = failed.trace ++ newEntries failed (failed.call (.logError e)) := by
    rw [newEntries_call]; rfl
  have hA := newEntries_trans w listed reached ht1 ht2
  have hB := newEntries_trans w reached failed hA.1 ht3
  have hC := newEntries_trans w failed _ hB.1 ht4
  have hev : newEvents w (failed.call (.logError e)) =
      newEvents w listed ++ newEvents listed reached ++ newEvents reached failed
        ++ [Event.logError e] := by
    unfold newEvents
    rw [hC.2, hB.2, hA.2, newEntries_call]
    simp
  have hq1 := mainSetup_added_paths env dirname w
  rw [hlisting] at hq1
  have hq2 := mainLoop_added_paths env _ _ _ listed reached hfirst
  have hq3 := convert_added_paths env (path.join (htmlFolderPath dirname) file)
    (mainOutputDirectory dirname) (outputFileName file) mainOptions reached rfl
  rw [hfails] at hq3
  rw [hmain]
  refine ⟨rfl, ?_, ?_, ?_, ?_, ?_⟩
  · rw [hev]
    simp only [invocations, List.filterMap_append] at hi1 hi2 hi3 ⊢
    rw [hi1, hi2, hi3, List.nil_append, mainOptions_eq, List.map_append]
    simp
  · rw [hev]
    simp only [converted, List.filterMap_append] at hc1 hc2 hc3 ⊢
    rw [hc1, hc2, hc3]
    simp
  · rw [hev]
    simp only [loggedErrors, List.filterMap_append] at he1 he2 he3 ⊢
    rw [he1, he2, he3]
    rfl
  · intro done hdone
    have hmem := hp3 _ (ho2 done hdone)
    simpa [fs.existsSync] using hmem
  · intro q hq
    rcases hq3 q hq with h | h | h | h
    · rcases hq2 q h with h | h | h | ⟨f, hf, h⟩
      · exact hq1 q h |>.elim Or.inl (fun h => Or.inr (h.elim Or.inl (fun h => Or.inr (Or.inl h))))
      · exact Or.inr (Or.inl h)
      · exact Or.inr (Or.inr (Or.inl h))
      · exact Or.inr (Or.inr (Or.inr ⟨f, List.mem_append_left _ hf, h⟩))
    · exact Or.inr (Or.inl h)
    · exact Or.inr (Or.inr (Or.inl h))
    · exact Or.inr (Or.inr (Or.inr ⟨file, by simp, h⟩))

/-- Witness for C7 (as amended): of `a.html`, `b.html`, `c.html` the second fails; `a.html`
and `b.html` are invoked, `c.html` is not, `a.html` alone is reported, and
the error is logged once. -/
theorem main_stops_at_first_failure_witness :
    htmlFiles ["a.html", "b.html", "c.html"] = ["a.html"] ++ "b.html" :: ["c.html"] ∧
    (invocations (newEvents Scenario.batchSources
        (main Scenario.secondFails Scenario.scriptDirectory Scenario.batchSources))).map
        (fun call => call.2.2.1) = ["a.pdf", "b.pdf"] ∧
    converted (newEvents Scenario.batchSources
        (main Scenario.secondFails Scenario.scriptDirectory Scenario.batchSources)) =
      [("a.html", "a.pdf")] ∧
    loggedErrors (newEvents Scenario.batchSources
        (main Scenario.secondFails Scenario.scriptDirectory Scenario.batchSources)) =
      [Scenario.exportError] :=
  have h := main_stops_at_first_failure Scenario.secondFails Scenario.scriptDirectory
    Scenario.batchSources ["a.html", "b.html", "c.html"] ["a.html"] ["c.html"] "b.html"
    Scenario.exportError
    (mainSetup Scenario.secondFails Scenario.scriptDirectory Scenario.batchSources).2
    (mainLoop Scenario.secondFails (htmlFolderPath Scenario.scriptDirectory)
      (mainOutputDirectory Scenario.scriptDirectory) ["a.html"]
      (mainSetup Scenario.secondFails Scenario.scriptDirectory Scenario.batchSources).2).2
    (mainTry Scenario.secondFails Scenario.scriptDirectory Scenario.batchSources).2
    rfl (by decide) rfl rfl
  ⟨by decide, by rw [h.2.1]; rfl, h.2.2.1, h.2.2.2.1⟩

/-- Counterexample to C7 as stated: of `a.html`, `b.html`, `c.html` the second
is the first whose conversion fails (the loop over `a.html` completes, the
conversion of `b.html` throws, from `browser.close`, after its export), so
k = 2; `main` leaves two outputs, `a.pdf` and `b.pdf`, not k - 1 = 1. -/
theorem failure_after_export_leaves_its_output :
    htmlFiles ["a.html", "b.html", "c.html"] = ["a.html"] ++ "b.html" :: ["c.html"] ∧
    (mainLoop Scenario.closeFails (htmlFolderPath Scenario.scriptDirectory)
      (mainOutputDirectory Scenario.scriptDirectory) ["a.html"]
      (mainSetup Scenario.closeFails Scenario.scriptDirectory Scenario.batchSources).2).1
      = .ok () ∧
    (convertHTMLFileToPDF Scenario.closeFails
      (path.join (htmlFolderPath Scenario.scriptDirectory) "b.html")
      (mainOutputDirectory Scenario.scriptDirectory) (outputFileName "b.html") mainOptions
      (mainLoop Scenario.closeFails (htmlFolderPath Scenario.scriptDirectory)
        (mainOutputDirectory Scenario.scriptDirectory) ["a.html"]
        (mainSetup Scenario.closeFails Scenario.scriptDirectory Scenario.batchSources).2).2).1
      = .error Scenario.closeError ∧
    converted (newEvents Scenario.batchSources
        (main Scenario.closeFails Scenario.scriptDirectory Scenario.batchSources)) =
      [("a.html", "a.pdf")] ∧
    outputsIn (mainOutputDirectory Scenario.scriptDirectory)
        (main Scenario.closeFails Scenario.scriptDirectory Scenario.batchSources) =
      ["/srv/app/PDF Leaflets-newv3/a.pdf", "/srv/app/PDF Leaflets-newv3/b.pdf"] :=
  ⟨by decide, rfl, rfl, rfl, by decide⟩

end HtmlToPdf
